import Mathlib

/-
Shallow embedding of `src/telegram_timer.py` (the session reconstruction and
statistics aggregation core of the telegram_timer repository).

Modelling conventions:
  * A Python `datetime` is modelled by `PyDateTime`: its calendar fields
    (`year`, `month`, `day`) plus the absolute instant `abs` in seconds.
    Subtraction of datetimes (`a - b`, a timedelta) is `a.abs - b.abs`
    seconds; `a.date() == b.date()` is equality of the calendar fields.
  * A `timedelta` is an integer number of seconds (the source only ever
    builds timedeltas as differences of datetimes and compares or sums
    their `.total_seconds()`).
  * A log record (a JSON dict) is `LogEntry`.  The JSON file behind
    `load_logs`/`save_log` is modelled by `FileState α` together with a
    `parse`/`serialize` pair standing for `json.load`/`json.dump`.
  * Functions that can raise return `Except String _`; the message names
    the Python exception.
  * Floating point arithmetic on durations is modelled over `ℚ` (the
    values involved are exact small rationals); `scipy.stats.lognorm.fit`,
    `np.exp`, `np.log` and `np.sqrt` are opaque numeric library routines
    and are passed in as the `NumLib` parameter.
  * `datetime.now()` is called *inside* the scan loops of the source
    (once per matching log entry).  The loops are therefore parameterised
    by a clock stream `clock : Nat → PyDateTime`; `clock i` is the value
    returned by the i-th `datetime.now()` call of the scan.
-/

/-- Model of a Python `datetime`: calendar fields plus the absolute
instant in seconds. -/
structure PyDateTime where
  year : Int
  month : Nat
  day : Nat
  abs : Int
deriving DecidableEq

/-- One record of the JSON log (`log.json`): `user_id`, optional
`username`, `action` (`"start"` or `"end"` when written by the bot),
`timestamp`, and the informational `duration` string present on `end`
records. -/
structure LogEntry where
  user_id : Nat
  username : Option String
  action : String
  timestamp : PyDateTime
  duration : Option String
deriving DecidableEq

/-- Zero-padded two-digit rendering, the model of Python's `f"{n:02}"`
(minimum width two, no truncation above 99). -/
def pad2 (n : Nat) : String :=
  if n < 10 then "0" ++ toString n else toString n

/-- The `HHh MMm SSs` body of `format_duration` for a positive number of
seconds (source lines 22-26). -/
def format_duration_core (total_seconds : Nat) : String :=
  pad2 (total_seconds / 3600) ++ "h " ++ pad2 (total_seconds % 3600 / 60) ++ "m "
    ++ pad2 (total_seconds % 60) ++ "s"

/-- `format_duration` (source lines 14-26).  The input is a timedelta in
seconds; a negative timedelta raises `ValueError`.  (The
`isinstance(td, timedelta)` check is enforced by the type here.) -/
def format_duration (td : Int) : Except String String :=
  if td < 0 then .error "ValueError: Negative timedelta is not allowed"
  else if td = 0 then .ok "00h 00m 00s"
  else .ok (format_duration_core td.toNat)

/-- The state of the backing JSON file: absent, or present with raw
content of type `α`. -/
inductive FileState (α : Type) where
  | absent : FileState α
  | present : α → FileState α
deriving DecidableEq

/-- `load_logs` (source lines 29-39).  `parse` models `json.load`:
`none` when the content is empty or unparsable (`json.JSONDecodeError`),
which the source catches and turns into `[]`.  The absent-file case
returns `[]` before opening the file. -/
def load_logs {α : Type} (parse : α → Option (List LogEntry)) :
    FileState α → Except String (List LogEntry)
  | .absent => .ok []
  | .present c =>
    match parse c with
    | some logs => .ok logs
    | none => .ok []

/-- The argument of `save_log`: either a structured record (a Python
dict) or some non-dict value. -/
inductive PyVal where
  | dict : LogEntry → PyVal
  | scalar : String → PyVal
deriving DecidableEq

/-- `save_log` (source lines 42-49): validates that the entry is a dict,
loads the full log, appends, and rewrites the whole file.  `serialize`
models `json.dump`. -/
def save_log {α : Type} (parse : α → Option (List LogEntry))
    (serialize : List LogEntry → α) (entry : PyVal) (st : FileState α) :
    Except String (FileState α) :=
  match entry with
  | .scalar _ => .error "ValueError: Log entry must be a dictionary"
  | .dict e =>
    match load_logs parse st with
    | .ok logs => .ok (.present (serialize (logs ++ [e])))
    | .error msg => .error msg

/-- `get_total_sessions` (source lines 51-60): counts the `end` records
of the user over the whole log. -/
def get_total_sessions (logs : List LogEntry) (user_id : Nat) : Nat :=
  logs.foldl
    (fun total_sessions entry =>
      if entry.user_id == user_id && entry.action == "end" then total_sessions + 1
      else total_sessions)
    0

/-- `ts.date() == now.date()` on the model. -/
def sameDate (a b : PyDateTime) : Bool :=
  a.year == b.year && a.month == b.month && a.day == b.day

/-- The window test of `get_user_daily_stats` (source line 251):
`timestamp.year == now.year and timestamp.month == now.month and
timestamp.date() == now.date()`. -/
def dailyWindow (ts now : PyDateTime) : Bool :=
  ts.year == now.year && ts.month == now.month && sameDate ts now

/-- The window test of `get_user_monthly_stats` (source line 286). -/
def monthlyWindow (ts now : PyDateTime) : Bool :=
  ts.year == now.year && ts.month == now.month

/-- The window test of `get_user_yearly_stats` (source line 320). -/
def yearlyWindow (ts now : PyDateTime) : Bool :=
  ts.year == now.year

/-- The session-reconstruction scan shared (by textual duplication) by
`get_user_daily_stats`, `get_user_monthly_stats` and
`get_user_yearly_stats` (source lines 245-258, 280-293, 314-327),
parameterised by the window test `w`.  `datetime.now()` is evaluated
once per matching entry in the source, hence the clock stream `clock`
and the call counter `i`.  `temp` is the pending start; a `start` in the
window overwrites it, an `end` in the window with a pending start closes
a session (its duration in seconds is emitted) and clears it, and an
`end` with no pending start leaves the state unchanged. -/
def windowLoopClock (w : PyDateTime → PyDateTime → Bool)
    (clock : Nat → PyDateTime) (user_id : Nat) :
    List LogEntry → Nat → Option PyDateTime → List Int
  | [], _, _ => []
  | entry :: rest, i, temp =>
    if entry.user_id != user_id then windowLoopClock w clock user_id rest i temp
    else
      let now := clock i
      if w entry.timestamp now then
        if entry.action == "start" then
          windowLoopClock w clock user_id rest (i + 1) (some entry.timestamp)
        else if entry.action == "end" then
          match temp with
          | some s =>
            (entry.timestamp.abs - s.abs) :: windowLoopClock w clock user_id rest (i + 1) none
          | none => windowLoopClock w clock user_id rest (i + 1) temp
        else windowLoopClock w clock user_id rest (i + 1) temp
      else windowLoopClock w clock user_id rest (i + 1) temp

/-- The same scan evaluated against a single reference instant.  This
follows the spec's words — "Now is the wall-clock instant at request
time, evaluated once per request" — and is the comparison point for the
once-per-request claim; the source itself is `windowLoopClock`. -/
def windowLoopOnce (w : PyDateTime → PyDateTime → Bool) (now : PyDateTime)
    (user_id : Nat) : List LogEntry → Option PyDateTime → List Int
  | [], _ => []
  | entry :: rest, temp =>
    if entry.user_id != user_id then windowLoopOnce w now user_id rest temp
    else if w entry.timestamp now then
      if entry.action == "start" then
        windowLoopOnce w now user_id rest (some entry.timestamp)
      else if entry.action == "end" then
        match temp with
        | some s => (entry.timestamp.abs - s.abs) :: windowLoopOnce w now user_id rest none
        | none => windowLoopOnce w now user_id rest temp
      else windowLoopOnce w now user_id rest temp
    else windowLoopOnce w now user_id rest temp

/-- The unfiltered session-reconstruction scan of
`get_user_overall_stats` (source lines 348-359): no window test and no
`datetime.now()` call; emits each closed session's duration in
seconds. -/
def overallLoop (user_id : Nat) : List LogEntry → Option PyDateTime → List Int
  | [], _ => []
  | entry :: rest, temp =>
    if entry.user_id != user_id then overallLoop user_id rest temp
    else if entry.action == "start" then overallLoop user_id rest (some entry.timestamp)
    else if entry.action == "end" then
      match temp with
      | some s => (entry.timestamp.abs - s.abs) :: overallLoop user_id rest none
      | none => overallLoop user_id rest temp
    else overallLoop user_id rest temp

/-- The sessions list built by `get_user_overall_stats` (durations in
seconds, in event order). -/
def overallSessions (logs : List LogEntry) (user_id : Nat) : List Int :=
  overallLoop user_id logs none

/-- The session-collection scan of `generate_consistency_plot` (source
lines 117-128): same pairing discipline, filtered by the last-30-days
test `(ts - now) < timedelta(days=30)` — literally
`ts.abs - now.abs < 2592000` — and emitting `(start, end)` datetime
pairs.  `datetime.now()` is evaluated once per matching entry (source
line 122), hence the clock stream. -/
def consistencyLoop (clock : Nat → PyDateTime) (user_id : Nat) :
    List LogEntry → Nat → Option PyDateTime → List (PyDateTime × PyDateTime)
  | [], _, _ => []
  | entry :: rest, i, temp =>
    if entry.user_id != user_id then consistencyLoop clock user_id rest i temp
    else
      let now := clock i
      if entry.timestamp.abs - now.abs < 2592000 then
        if entry.action == "start" then
          consistencyLoop clock user_id rest (i + 1) (some entry.timestamp)
        else if entry.action == "end" then
          match temp with
          | some s => (s, entry.timestamp) :: consistencyLoop clock user_id rest (i + 1) none
          | none => consistencyLoop clock user_id rest (i + 1) temp
        else consistencyLoop clock user_id rest (i + 1) temp
      else consistencyLoop clock user_id rest (i + 1) temp

/-- The sessions collected by `generate_consistency_plot`. -/
def consistencySessions (clock : Nat → PyDateTime) (logs : List LogEntry)
    (user_id : Nat) : List (PyDateTime × PyDateTime) :=
  consistencyLoop clock user_id logs 0 none

/-- `t.date()` as the calendar triple. -/
def dateOf (t : PyDateTime) : Int × Nat × Nat := (t.year, t.month, t.day)

/-- The session-collection scan of `generate_histogram_plot` (source
lines 68-80): same last-30-days test, emitting
`(start date, duration in minutes)` pairs. -/
def histogramLoop (clock : Nat → PyDateTime) (user_id : Nat) :
    List LogEntry → Nat → Option PyDateTime → List ((Int × Nat × Nat) × ℚ)
  | [], _, _ => []
  | entry :: rest, i, temp =>
    if entry.user_id != user_id then histogramLoop clock user_id rest i temp
    else
      let now := clock i
      if entry.timestamp.abs - now.abs < 2592000 then
        if entry.action == "start" then
          histogramLoop clock user_id rest (i + 1) (some entry.timestamp)
        else if entry.action == "end" then
          match temp with
          | some s =>
            (dateOf s, ((entry.timestamp.abs - s.abs : ℤ) : ℚ) / 60)
              :: histogramLoop clock user_id rest (i + 1) none
          | none => histogramLoop clock user_id rest (i + 1) temp
        else histogramLoop clock user_id rest (i + 1) temp
      else histogramLoop clock user_id rest (i + 1) temp

/-- The reported average, `str(round(avg_seconds // 60)) + " min"`
(source lines 266-267 and duplicates): float floor-division of the exact
average by 60, then `round` — a no-op on the already-integral value, so
the reported figure is the floor of the average in minutes. -/
def avgStr (sessions : List Int) : String :=
  toString (Int.floor (((sessions.sum : ℚ) / (sessions.length : ℚ)) / 60)) ++ " min"

/-- Python's `max` over a list of session durations; it raises on an
empty list and the source only reaches it when `total_sessions > 0`. -/
def pyMax (l : List Int) : Int :=
  match l with
  | [] => 0
  | x :: xs => xs.foldl max x

/-- The reported maximum, `str(round(max(...) // 60)) + " min"` (source
line 268 and duplicates): again a floor, not a nearest-integer round. -/
def maxStr (sessions : List Int) : String :=
  toString (Int.floor ((pyMax sessions : ℚ) / 60)) ++ " min"

/-- The message of the `UnboundLocalError` raised by
`get_user_monthly_stats`, `get_user_yearly_stats` and
`get_user_overall_stats` when `total_sessions == 0`: their zero branch
assigns only `avg_duration` and `max_duration`, so the `return`
statement reads the never-assigned local `total_duration_formatted`. -/
def unboundLocalMsg : String :=
  "UnboundLocalError: local variable total_duration_formatted referenced before assignment"

/-- `get_user_daily_stats` (source lines 239-271).  Its zero-session
branch does assign `total_duration_formatted = "00:00:00"`, so it is the
one window-statistics function that returns normally with no data. -/
def get_user_daily_stats (clock : Nat → PyDateTime) (logs : List LogEntry)
    (user_id : Nat) : Except String (Nat × String × String × String) :=
  let sessions := windowLoopClock dailyWindow clock user_id logs 0 none
  let total_sessions := sessions.length
  if total_sessions = 0 then .ok (0, "N/A", "N/A", "00:00:00")
  else
    match format_duration sessions.sum with
    | .ok fmt => .ok (total_sessions, avgStr sessions, maxStr sessions, fmt)
    | .error e => .error e

/-- `get_user_monthly_stats` (source lines 274-305).  When
`total_sessions == 0` the `return` raises `UnboundLocalError` (see
`unboundLocalMsg`). -/
def get_user_monthly_stats (clock : Nat → PyDateTime) (logs : List LogEntry)
    (user_id : Nat) : Except String (Nat × String × String × String) :=
  let sessions := windowLoopClock monthlyWindow clock user_id logs 0 none
  let total_sessions := sessions.length
  if total_sessions = 0 then .error unboundLocalMsg
  else
    match format_duration sessions.sum with
    | .ok fmt => .ok (total_sessions, avgStr sessions, maxStr sessions, fmt)
    | .error e => .error e

/-- `get_user_yearly_stats` (source lines 308-339); same zero-session
`UnboundLocalError` as the monthly variant. -/
def get_user_yearly_stats (clock : Nat → PyDateTime) (logs : List LogEntry)
    (user_id : Nat) : Except String (Nat × String × String × String) :=
  let sessions := windowLoopClock yearlyWindow clock user_id logs 0 none
  let total_sessions := sessions.length
  if total_sessions = 0 then .error unboundLocalMsg
  else
    match format_duration sessions.sum with
    | .ok fmt => .ok (total_sessions, avgStr sessions, maxStr sessions, fmt)
    | .error e => .error e

/-- The opaque numeric library routines used by
`get_user_overall_stats`: `scipy.stats.lognorm.fit(..., floc=0)` (which
returns `(shape, loc, scale)`), `np.exp`, `np.log` and `np.sqrt`. -/
structure NumLib where
  lognormFit : List ℚ → ℚ × ℚ × ℚ
  expF : ℚ → ℚ
  logF : ℚ → ℚ
  sqrtF : ℚ → ℚ

/-- Python's `round(x, 2)` on the model (ties differ from the float
banker's rounding only at exact half-cents, which no claim exercises). -/
def round2 (x : ℚ) : ℚ := ((round (x * 100) : ℤ) : ℚ) / 100

/-- The strictly positive session durations in minutes,
`[s.total_seconds() / 60 for s in sessions if s.total_seconds() > 0]`
(source lines 374 and 402). -/
def durationsMinutes (sessions : List Int) : List ℚ :=
  (sessions.filter fun s => decide (0 < s)).map fun s => (s : ℚ) / 60

/-- The `lognorm_data` dict of `get_user_overall_stats` (source lines
372-395).  On the defined branch (sample size > 1, all positive) it fits
and derives mean/std/mode by the closed-form log-normal formulas; on the
insufficient-sample branch it sets `lognorm_shape`, `lognorm_loc`,
`lognorm_scale`, `lognorm_mean` and `lognorm_std` to `None` — and omits
the `lognorm_mode` key entirely. -/
def lognormData (nl : NumLib) (durations_minutes : List ℚ) :
    List (String × Option ℚ) :=
  if 1 < durations_minutes.length ∧ ∀ d ∈ durations_minutes, 0 < d then
    let f := nl.lognormFit durations_minutes
    let shape := f.1
    let loc := f.2.1
    let scale := f.2.2
    let lognorm_mean := nl.expF (nl.logF scale + shape ^ 2 / 2)
    let lognorm_std :=
      nl.sqrtF ((nl.expF (shape ^ 2) - 1) * nl.expF (2 * nl.logF scale + shape ^ 2))
    let lognorm_mode := nl.expF (nl.logF scale - shape ^ 2)
    [("lognorm_shape", some shape), ("lognorm_loc", some loc),
     ("lognorm_scale", some scale), ("lognorm_mean", some (round2 lognorm_mean)),
     ("lognorm_std", some (round2 lognorm_std)),
     ("lognorm_mode", some (round2 lognorm_mode))]
  else
    [("lognorm_shape", none), ("lognorm_loc", none), ("lognorm_scale", none),
     ("lognorm_mean", none), ("lognorm_std", none)]

/-- `np.mean` of an exact rational sample. -/
def npMean (l : List ℚ) : ℚ := l.sum / l.length

/-- `np.std` (population standard deviation). -/
def npStd (nl : NumLib) (l : List ℚ) : ℚ :=
  nl.sqrtF ((l.map fun d => (d - npMean l) ^ 2).sum / l.length)

/-- The `gaussian_data` dict of `get_user_overall_stats` (source lines
400-414): defined when the sample has more than one element, otherwise
both fields are `None`. -/
def gaussianData (nl : NumLib) (durations_minutes : List ℚ) :
    List (String × Option ℚ) :=
  if 1 < durations_minutes.length then
    [("gaussian_mean", some (round2 (npMean durations_minutes))),
     ("gaussian_std", some (round2 (npStd nl durations_minutes)))]
  else
    [("gaussian_mean", none), ("gaussian_std", none)]

/-- `get_user_overall_stats` (source lines 341-416).  When
`total_sessions == 0` the final `return` raises `UnboundLocalError`
(the distribution dicts are computed first but never escape). -/
def get_user_overall_stats (nl : NumLib) (logs : List LogEntry) (user_id : Nat) :
    Except String
      (Nat × String × String × String × List (String × Option ℚ) × List (String × Option ℚ)) :=
  let sessions := overallSessions logs user_id
  let total_sessions := sessions.length
  let durations_minutes := durationsMinutes sessions
  if total_sessions = 0 then .error unboundLocalMsg
  else
    match format_duration sessions.sum with
    | .ok fmt =>
      .ok (total_sessions, avgStr sessions, maxStr sessions, fmt,
        lognormData nl durations_minutes, gaussianData nl durations_minutes)
    | .error e => .error e

/-- Spec-side predicate: "event timestamp is within the most recent 30
days of the reference instant" (§9 of the spec, the evidently-intended
last-30-days rule). -/
def withinLast30Days (ts now : PyDateTime) : Prop :=
  now.abs - 2592000 < ts.abs ∧ ts.abs ≤ now.abs

instance (ts now : PyDateTime) : Decidable (withinLast30Days ts now) := by
  unfold withinLast30Days
  infer_instance

/-- Spec-side rendering of the average "rounded to nearest integer
minute" (§4.3 of the spec), the comparison point for the reported
`avgStr`. -/
def specNearestAvg (sessions : List Int) : String :=
  toString (round (((sessions.sum : ℚ) / (sessions.length : ℚ)) / 60)) ++ " min"

/-- The floor-of-minutes value actually reported in `avgStr`. -/
def flooredAvgMin (sessions : List Int) : Int :=
  Int.floor (((sessions.sum : ℚ) / (sessions.length : ℚ)) / 60)

/-- The floor-of-minutes value actually reported in `maxStr`. -/
def flooredMaxMin (sessions : List Int) : Int :=
  Int.floor ((pyMax sessions : ℚ) / 60)

/-- The timestamps of one user's entries, in stored order. -/
def userTs (user_id : Nat) (logs : List LogEntry) : List Int :=
  (logs.filter fun e => e.user_id == user_id).map fun e => e.timestamp.abs

/-- A datetime at second `t` (fixed dummy calendar fields; used for
claims that only involve the absolute instant). -/
def mkDT (t : Int) : PyDateTime := ⟨1970, 1, 1, t⟩

/-- A log record for user `u`, action `a`, instant `t`. -/
def mkE (u : Nat) (a : String) (t : Int) : LogEntry := ⟨u, none, a, mkDT t, none⟩

/-- A concrete instantiation of the opaque numeric routines, for the
closed evaluations below (none of their values reach the branches those
evaluations exercise). -/
def nl0 : NumLib := ⟨fun _ => (0, 0, 0), id, id, id⟩

/-- A two-event log whose session lies about 116 days in the past of
`now3`. -/
def log3 : List LogEntry := [mkE 1 "start" 0, mkE 1 "end" 600]

/-- A reference instant 10^7 seconds (about 116 days) after `log3`'s
events. -/
def now3 : PyDateTime := mkDT 10000000

/-- A log with one session on 2023-05-01 and one on 2024-05-01, for
user 1. -/
def c6Log : List LogEntry :=
  [⟨1, none, "start", ⟨2023, 5, 1, 1000⟩, none⟩,
   ⟨1, none, "end", ⟨2023, 5, 1, 1600⟩, none⟩,
   ⟨1, none, "start", ⟨2024, 5, 1, 2000⟩, none⟩,
   ⟨1, none, "end", ⟨2024, 5, 1, 2600⟩, none⟩]

/-- A wall clock that crosses from 2023-05-01 to 2024-05-01 after the
second `datetime.now()` call of a scan. -/
def tickClock : Nat → PyDateTime :=
  fun i => if i < 2 then ⟨2023, 5, 1, 1700⟩ else ⟨2024, 5, 1, 2700⟩

/-- C1: the claim says every window-statistics operation returns
normally with `total_sessions = 0` and "N/A" markers when the user has
no sessions in the window.  On the code, only the daily variant does;
the monthly, yearly and overall variants raise `UnboundLocalError` at
their `return` because the zero branch never assigns
`total_duration_formatted` (source lines 296-305, 330-339, 362-369
versus the daily zero branch at 261-264).  Shown here on the empty log
and on a log holding only another user's session. -/
theorem c1_zero_sessions_raises :
    get_user_daily_stats (fun _ => mkDT 0) [] 1 = .ok (0, "N/A", "N/A", "00:00:00") ∧
    get_user_monthly_stats (fun _ => mkDT 0) [] 1 = .error unboundLocalMsg ∧
    get_user_yearly_stats (fun _ => mkDT 0) [] 1 = .error unboundLocalMsg ∧
    get_user_overall_stats nl0 [] 1 = .error unboundLocalMsg ∧
    get_user_monthly_stats (fun _ => mkDT 0) [mkE 2 "start" 0, mkE 2 "end" 60] 1
      = .error unboundLocalMsg := by
  exact ⟨rfl, rfl, rfl, rfl, rfl⟩

/-- C2: on a strictly positive sample of size 1 (log: one 300-second
session, `durations_minutes = [5]`) the insufficient-sample branch sets
the Normal fields and five of the six Log-Normal fields to the
"undefined" marker — but omits the `lognorm_mode` key from the dict
entirely (source lines 388-395 list only shape/loc/scale/mean/std), so
the mode field is not the undefined marker: it is absent, and the caller
`report` (line 464) would fail looking it up. -/
theorem c2_mode_key_missing :
    lognormData nl0 [5] = [("lognorm_shape", none), ("lognorm_loc", none),
      ("lognorm_scale", none), ("lognorm_mean", none), ("lognorm_std", none)] ∧
    (lognormData nl0 [5]).lookup "lognorm_mode" = none ∧
    (lognormData nl0 [5]).lookup "lognorm_std" = some none ∧
    gaussianData nl0 [5] = [("gaussian_mean", none), ("gaussian_std", none)] ∧
    get_user_overall_stats nl0 [mkE 1 "start" 0, mkE 1 "end" 300] 1
      = .ok (1, "5 min", "5 min", "00h 05m 00s",
          [("lognorm_shape", none), ("lognorm_loc", none), ("lognorm_scale", none),
           ("lognorm_mean", none), ("lognorm_std", none)],
          [("gaussian_mean", none), ("gaussian_std", none)]) := by
  refine ⟨by decide, by decide, by decide, by decide, ?_⟩
  simp [get_user_overall_stats, overallSessions, overallLoop, mkE, mkDT,
    durationsMinutes, lognormData, gaussianData, format_duration, format_duration_core,
    pad2, avgStr, maxStr, pyMax, nl0]
  norm_num
  decide

/-- C3: the last-30-days filters compare `(ts - now) < timedelta(days=30)`
(source lines 74 and 123), which is true for *every* past event, so an
event about 116 days old is still paired into a session by both the
histogram and the consistency views, although the spec's intended rule
`withinLast30Days` excludes it. -/
theorem c3_old_events_included :
    histogramLoop (fun _ => now3) 1 log3 0 none = [((1970, 1, 1), 10)] ∧
    consistencySessions (fun _ => now3) log3 1 = [(mkDT 0, mkDT 600)] ∧
    ¬ withinLast30Days (mkDT 0) now3 ∧ ¬ withinLast30Days (mkDT 600) now3 := by
  refine ⟨?_, by decide, by decide, by decide⟩
  simp [histogramLoop, log3, mkE, mkDT, now3, dateOf]
  norm_num

/-- C5 counterexample: one 90-second session.  The reported average and
maximum are "1 min" (floor of 1.5 minutes, via `round(x // 60)`), while
the claimed nearest-integer rounding gives "2 min". -/
theorem c5_counterexample_floor_not_nearest :
    get_user_overall_stats nl0 [mkE 1 "start" 0, mkE 1 "end" 90] 1
      = .ok (1, "1 min", "1 min", "00h 01m 30s",
          [("lognorm_shape", none), ("lognorm_loc", none), ("lognorm_scale", none),
           ("lognorm_mean", none), ("lognorm_std", none)],
          [("gaussian_mean", none), ("gaussian_std", none)]) ∧
    specNearestAvg (overallSessions [mkE 1 "start" 0, mkE 1 "end" 90] 1) = "2 min" ∧
    ("1 min" : String) ≠ "2 min" := by
  refine ⟨?_, ?_, by decide⟩
  · simp [get_user_overall_stats, overallSessions, overallLoop, mkE, mkDT,
      durationsMinutes, lognormData, gaussianData, format_duration, format_duration_core,
      pad2, avgStr, maxStr, pyMax, nl0]
    norm_num
    decide
  · simp [specNearestAvg, overallSessions, overallLoop, mkE, mkDT, round_eq]
    norm_num
    decide

/-- C6 counterexample: with the wall clock crossing a calendar-day (and
year) boundary between the second and third `datetime.now()` calls of
one scan, the daily scan as coded (`windowLoopClock`, now re-evaluated
per matching event) counts sessions of both days, while the
once-per-request evaluation at the request instant (`clock 0`,
`windowLoopOnce`) counts only the first day's session: the events of a
single computation are not all tested against one reference instant. -/
theorem c6_counterexample_now_per_iteration :
    windowLoopClock dailyWindow tickClock 1 c6Log 0 none = [600, 600] ∧
    windowLoopOnce dailyWindow (tickClock 0) 1 c6Log none = [600] ∧
    windowLoopClock dailyWindow tickClock 1 c6Log 0 none
      ≠ windowLoopOnce dailyWindow (tickClock 0) 1 c6Log none := by
  refine ⟨by decide, by decide, by decide⟩

/-- Helper: with a constant wall clock, the per-iteration-now scan
coincides with the single-reference-instant scan. -/
theorem windowLoopClock_const (w : PyDateTime → PyDateTime → Bool) (now : PyDateTime)
    (user_id : Nat) :
    ∀ (logs : List LogEntry) (i : Nat) (temp : Option PyDateTime),
      windowLoopClock w (fun _ => now) user_id logs i temp
        = windowLoopOnce w now user_id logs temp := by
  intro logs
  induction logs with
  | nil => intro i temp; rfl
  | cons e rest ih =>
    intro i temp
    simp only [windowLoopClock, windowLoopOnce]
    by_cases hu : (e.user_id != user_id) = true
    · simp only [if_pos hu]; exact ih i temp
    · simp only [if_neg hu]
      by_cases hw : w e.timestamp now = true
      · simp only [if_pos hw]
        by_cases hs : (e.action == "start") = true
        · simp only [if_pos hs]; exact ih (i + 1) (some e.timestamp)
        · simp only [if_neg hs]
          by_cases he : (e.action == "end") = true
          · simp only [if_pos he]
            cases temp with
            | some s => rw [ih (i + 1) none]
            | none => exact ih (i + 1) none
          · simp only [if_neg he]; exact ih (i + 1) temp
      · simp only [if_neg hw]; exact ih (i + 1) temp

/-- C6 (amended): the reference instant is re-evaluated at each matching
event inside the scan (`datetime.now()` sits in the loop body), not once
per request; whenever every evaluation during one scan returns the same
instant, each daily/monthly/yearly computation coincides with the
once-per-request semantics, i.e. every event is tested against that one
reference instant. -/
theorem c6_now_constant_clock_coincides (w : PyDateTime → PyDateTime → Bool)
    (now : PyDateTime) (user_id : Nat) (logs : List LogEntry) (i : Nat)
    (temp : Option PyDateTime) :
    windowLoopClock w (fun _ => now) user_id logs i temp
      = windowLoopOnce w now user_id logs temp ∧
    windowLoopClock dailyWindow (fun _ => now) user_id logs i temp
      = windowLoopOnce dailyWindow now user_id logs temp ∧
    windowLoopClock monthlyWindow (fun _ => now) user_id logs i temp
      = windowLoopOnce monthlyWindow now user_id logs temp ∧
    windowLoopClock yearlyWindow (fun _ => now) user_id logs i temp
      = windowLoopOnce yearlyWindow now user_id logs temp :=
  ⟨windowLoopClock_const w now user_id logs i temp,
   windowLoopClock_const dailyWindow now user_id logs i temp,
   windowLoopClock_const monthlyWindow now user_id logs i temp,
   windowLoopClock_const yearlyWindow now user_id logs i temp⟩

/-- C4: on the event sequence `[start(t1), start(t2), end(t3)]` with
`t1 < t2 < t3` (all in the past of the reference instant for the
filtered view), the reconstructor yields exactly one session: the
overall scan emits the single duration `t3 - t2`, and the pair-emitting
scan yields exactly `(t2, t3)` — the earlier start is overwritten and
never becomes a session. -/
theorem c4_overwrite (u : Nat) (t1 t2 t3 : Int) (nw : PyDateTime)
    (h12 : t1 < t2) (h23 : t2 < t3) (h3n : t3 ≤ nw.abs) :
    overallSessions [mkE u "start" t1, mkE u "start" t2, mkE u "end" t3] u = [t3 - t2] ∧
    consistencySessions (fun _ => nw) [mkE u "start" t1, mkE u "start" t2, mkE u "end" t3] u
      = [(mkDT t2, mkDT t3)] := by
  have w1 : t1 - nw.abs < 2592000 := by omega
  have w2 : t2 - nw.abs < 2592000 := by omega
  have w3 : t3 - nw.abs < 2592000 := by omega
  constructor
  · simp [overallSessions, overallLoop, mkE, mkDT]
  · simp [consistencySessions, consistencyLoop, mkE, mkDT, w1, w2, w3]

/-- Witness for C4 at `u = 1`, `t1 = 0`, `t2 = 10`, `t3 = 20`, with the
reference instant at second 100. -/
theorem c4_overwrite_witness :
    overallSessions [mkE 1 "start" 0, mkE 1 "start" 10, mkE 1 "end" 20] 1 = [20 - 10] ∧
    consistencySessions (fun _ => mkDT 100)
        [mkE 1 "start" 0, mkE 1 "start" 10, mkE 1 "end" 20] 1 = [(mkDT 10, mkDT 20)] :=
  c4_overwrite 1 0 10 20 (mkDT 100) (by decide) (by decide) (by decide)

/-- C8: for every state of the backing store — absent, or present with
content that parses or fails to parse — `load_logs` returns a sequence
and never raises: the absent and unparsable (empty or corrupted) cases
both yield the empty sequence. -/
theorem c8_load_fails_soft {α : Type} (parse : α → Option (List LogEntry))
    (st : FileState α) :
    (∃ logs, load_logs parse st = .ok logs) ∧
    (st = .absent → load_logs parse st = .ok []) ∧
    (∀ c, st = .present c → parse c = none → load_logs parse st = .ok []) := by
  refine ⟨?_, ?_, ?_⟩
  · cases st with
    | absent => exact ⟨[], rfl⟩
    | present c =>
      cases h : parse c with
      | some logs => exact ⟨logs, by simp [load_logs, h]⟩
      | none => exact ⟨[], by simp [load_logs, h]⟩
  · rintro rfl; rfl
  · rintro c rfl hpc; simp [load_logs, hpc]

/-- C9: appending a structured record `e` over any prior store state and
loading again yields the previously loaded sequence extended by `e`, so
the last element equals `e` and the preceding elements are the prior
sequence (given that `parse` inverts `serialize`, the contract of
`json.load`/`json.dump`). -/
theorem c9_append_roundtrip {α : Type} (parse : α → Option (List LogEntry))
    (serialize : List LogEntry → α)
    (hrt : ∀ logs, parse (serialize logs) = some logs)
    (e : LogEntry) (st : FileState α) (logs0 : List LogEntry)
    (hload : load_logs parse st = .ok logs0) (st' : FileState α)
    (hsave : save_log parse serialize (PyVal.dict e) st = .ok st') :
    load_logs parse st' = .ok (logs0 ++ [e]) ∧ (logs0 ++ [e]).getLast? = some e := by
  have hst' : st' = .present (serialize (logs0 ++ [e])) := by
    unfold save_log at hsave
    rw [hload] at hsave
    exact (Except.ok.inj hsave).symm
  subst hst'
  constructor
  · simp [load_logs, hrt]
  · exact List.getLast?_concat _

/-- Witness for C9: content type `Option (List LogEntry)` with `parse = id`
and `serialize = some`, appending one record to the absent store. -/
theorem c9_append_roundtrip_witness :
    load_logs (id : Option (List LogEntry) → Option (List LogEntry))
        (FileState.present (some [mkE 1 "start" 0])) = .ok ([] ++ [mkE 1 "start" 0]) ∧
    (([] : List LogEntry) ++ [mkE 1 "start" 0]).getLast? = some (mkE 1 "start" 0) :=
  c9_append_roundtrip id some (fun _ => rfl) (mkE 1 "start" 0) FileState.absent [] rfl
    (FileState.present (some [mkE 1 "start" 0])) rfl

/-- Helper: the counting loop of `get_total_sessions` from any
accumulator equals the accumulator plus the number of matching `end`
records. -/
theorem get_total_sessions_foldl (user_id : Nat) :
    ∀ (logs : List LogEntry) (acc : Nat),
      logs.foldl
          (fun total_sessions entry =>
            if entry.user_id == user_id && entry.action == "end" then total_sessions + 1
            else total_sessions) acc
        = acc + logs.countP fun e => e.user_id == user_id && e.action == "end" := by
  intro logs
  induction logs with
  | nil => intro acc; simp
  | cons e rest ih =>
    intro acc
    rw [List.foldl_cons, List.countP_cons]
    by_cases h : (e.user_id == user_id && e.action == "end") = true
    · rw [ih, if_pos h, if_pos h]; omega
    · rw [ih, if_neg h, if_neg h]; omega

/-- Helper: each reconstructed session consumes one matching `end`
record, and an `end` with no pending start produces none, so the session
count never exceeds the `end` count. -/
theorem overallLoop_length_le_endCount (user_id : Nat) :
    ∀ (logs : List LogEntry) (temp : Option PyDateTime),
      (overallLoop user_id logs temp).length
        ≤ logs.countP fun e => e.user_id == user_id && e.action == "end" := by
  intro logs
  induction logs with
  | nil => intro temp; simp [overallLoop]
  | cons e rest ih =>
    intro temp
    by_cases hu : e.user_id = user_id
    · by_cases hs : e.action = "start"
      · have hzero :
            (e :: rest).countP (fun e => e.user_id == user_id && e.action == "end")
              = rest.countP fun e => e.user_id == user_id && e.action == "end" := by
          simp [List.countP_cons, hs]
        have hl : overallLoop user_id (e :: rest) temp
            = overallLoop user_id rest (some e.timestamp) := by
          simp [overallLoop, hu, hs]
        rw [hl, hzero]
        exact ih (some e.timestamp)
      · by_cases he : e.action = "end"
        · have hone :
              (e :: rest).countP (fun e => e.user_id == user_id && e.action == "end")
                = (rest.countP fun e => e.user_id == user_id && e.action == "end") + 1 := by
            simp [List.countP_cons, hu, he]
          rw [hone]
          cases temp with
          | some s =>
            have hl : overallLoop user_id (e :: rest) (some s)
                = (e.timestamp.abs - s.abs) :: overallLoop user_id rest none := by
              simp [overallLoop, hu, hs, he]
            rw [hl, List.length_cons]
            exact Nat.succ_le_succ (ih none)
          | none =>
            have hl : overallLoop user_id (e :: rest) none = overallLoop user_id rest none := by
              simp [overallLoop, hu, hs, he]
            rw [hl]
            exact le_trans (ih none) (Nat.le_succ _)
        · have hzero :
              (e :: rest).countP (fun e => e.user_id == user_id && e.action == "end")
                = rest.countP fun e => e.user_id == user_id && e.action == "end" := by
            simp [List.countP_cons, he]
          have hl : overallLoop user_id (e :: rest) temp = overallLoop user_id rest temp := by
            simp [overallLoop, hu, hs, he]
          rw [hl, hzero]
          exact ih temp
    · have hzero :
          (e :: rest).countP (fun e => e.user_id == user_id && e.action == "end")
            = rest.countP fun e => e.user_id == user_id && e.action == "end" := by
        simp [List.countP_cons, hu]
      have hl : overallLoop user_id (e :: rest) temp = overallLoop user_id rest temp := by
        simp [overallLoop, hu]
      rw [hl, hzero]
      exact ih temp

/-- C10: `get_total_sessions` counts exactly the `end` records of the
user — including `end` records the reconstructor discards for lack of a
pending start — so it always dominates the reconstructed-session count
and can strictly exceed it (e.g. on a log holding a single orphaned
`end`). -/
theorem c10_counts_all_ends :
    (∀ (logs : List LogEntry) (user_id : Nat),
        get_total_sessions logs user_id
          = logs.countP fun e => e.user_id == user_id && e.action == "end") ∧
    (∀ (logs : List LogEntry) (user_id : Nat),
        (overallSessions logs user_id).length ≤ get_total_sessions logs user_id) ∧
    (∃ (logs : List LogEntry) (user_id : Nat),
        (overallSessions logs user_id).length < get_total_sessions logs user_id) := by
  have hcount : ∀ (logs : List LogEntry) (user_id : Nat),
      get_total_sessions logs user_id
        = logs.countP fun e => e.user_id == user_id && e.action == "end" := by
    intro logs user_id
    have := get_total_sessions_foldl user_id logs 0
    simpa [get_total_sessions] using this
  refine ⟨hcount, ?_, ⟨[mkE 1 "end" 0], 1, by decide⟩⟩
  intro logs user_id
  rw [hcount]
  exact overallLoop_length_le_endCount user_id logs none

/-- Helper: a matching entry contributes its timestamp to the user timeline. -/
theorem userTs_cons_match (user_id : Nat) (e : LogEntry) (rest : List LogEntry)
    (h : e.user_id = user_id) :
    userTs user_id (e :: rest) = e.timestamp.abs :: userTs user_id rest := by
  simp [userTs, List.filter_cons, h]

/-- Helper: another user's entry leaves the user timeline unchanged. -/
theorem userTs_cons_skip (user_id : Nat) (e : LogEntry) (rest : List LogEntry)
    (h : ¬ e.user_id = user_id) :
    userTs user_id (e :: rest) = userTs user_id rest := by
  simp [userTs, List.filter_cons, h]

/-- Helper: with the user's timestamps in ascending order and the
pending start (if any) below them all, every emitted duration is
nonnegative. -/
theorem overallLoop_nonneg (user_id : Nat) :
    ∀ (logs : List LogEntry) (temp : Option PyDateTime),
      List.Pairwise (· ≤ ·) (userTs user_id logs) →
      (∀ s, temp = some s → ∀ t ∈ userTs user_id logs, s.abs ≤ t) →
      ∀ d ∈ overallLoop user_id logs temp, 0 ≤ d := by
  intro logs
  induction logs with
  | nil => intro temp _ _ d hd; simp [overallLoop] at hd
  | cons e rest ih =>
    intro temp hsorted htemp d hd
    by_cases hu : e.user_id = user_id
    · rw [userTs_cons_match user_id e rest hu] at hsorted htemp
      rcases List.pairwise_cons.mp hsorted with ⟨hhead, htail⟩
      by_cases hs : e.action = "start"
      · have hl : overallLoop user_id (e :: rest) temp
            = overallLoop user_id rest (some e.timestamp) := by
          simp [overallLoop, hu, hs]
        rw [hl] at hd
        refine ih (some e.timestamp) htail ?_ d hd
        intro s hsome t ht
        rw [Option.some_inj] at hsome
        subst hsome
        exact hhead t ht
      · by_cases he : e.action = "end"
        · cases temp with
          | some s0 =>
            have hl : overallLoop user_id (e :: rest) (some s0)
                = (e.timestamp.abs - s0.abs) :: overallLoop user_id rest none := by
              simp [overallLoop, hu, hs, he]
            rw [hl] at hd
            rcases List.mem_cons.mp hd with hdd | hdd
            · subst hdd
              have hb : s0.abs ≤ e.timestamp.abs :=
                htemp s0 rfl e.timestamp.abs (List.mem_cons_self _ _)
              omega
            · refine ih none htail ?_ d hdd
              intro s hsome
              simp at hsome
          | none =>
            have hl : overallLoop user_id (e :: rest) none
                = overallLoop user_id rest none := by
              simp [overallLoop, hu, hs, he]
            rw [hl] at hd
            refine ih none htail ?_ d hd
            intro s hsome
            simp at hsome
        · have hl : overallLoop user_id (e :: rest) temp
              = overallLoop user_id rest temp := by
            simp [overallLoop, hu, hs, he]
          rw [hl] at hd
          refine ih temp htail ?_ d hd
          intro s hsome t ht
          exact htemp s hsome t (List.mem_cons_of_mem _ ht)
    · rw [userTs_cons_skip user_id e rest hu] at hsorted htemp
      have hl : overallLoop user_id (e :: rest) temp = overallLoop user_id rest temp := by
        simp [overallLoop, hu]
      rw [hl] at hd
      exact ih temp hsorted htemp d hd

/-- Helper: under the same ordering hypotheses, every emitted session
pair has start below end, every session start comes from the pending
start or the user's remaining timeline, and consecutive sessions are
ordered end-before-next-start (no overlap). -/
theorem consistencyLoop_inv (clock : Nat → PyDateTime) (user_id : Nat) :
    ∀ (logs : List LogEntry) (i : Nat) (temp : Option PyDateTime),
      List.Pairwise (· ≤ ·) (userTs user_id logs) →
      (∀ s, temp = some s → ∀ t ∈ userTs user_id logs, s.abs ≤ t) →
      (∀ p ∈ consistencyLoop clock user_id logs i temp,
          p.1.abs ≤ p.2.abs ∧
            p.1.abs ∈ (temp.elim ([] : List Int) fun s => [s.abs]) ++ userTs user_id logs) ∧
      List.Pairwise (fun p q : PyDateTime × PyDateTime => p.2.abs ≤ q.1.abs)
        (consistencyLoop clock user_id logs i temp) := by
  intro logs
  induction logs with
  | nil =>
    intro i temp _ _
    constructor
    · intro p hp; simp [consistencyLoop] at hp
    · simp [consistencyLoop]
  | cons e rest ih =>
    intro i temp hsorted htemp
    by_cases hu : e.user_id = user_id
    · rw [userTs_cons_match user_id e rest hu] at hsorted htemp ⊢
      rcases List.pairwise_cons.mp hsorted with ⟨hhead, htail⟩
      by_cases hw : e.timestamp.abs - (clock i).abs < 2592000
      · by_cases hs : e.action = "start"
        · have hl : consistencyLoop clock user_id (e :: rest) i temp
              = consistencyLoop clock user_id rest (i + 1) (some e.timestamp) := by
            simp [consistencyLoop, hu, hs, hw]
          rw [hl]
          have hrec := ih (i + 1) (some e.timestamp) htail ?_
          · constructor
            · intro p hp
              refine ⟨(hrec.1 p hp).1, ?_⟩
              have hmem := (hrec.1 p hp).2
              simp only [Option.elim] at hmem ⊢
              rcases List.mem_append.mp hmem with hm | hm
              · simp only [List.mem_singleton] at hm
                exact List.mem_append_right _ (by simp [hm])
              · exact List.mem_append_right _ (List.mem_cons_of_mem _ hm)
            · exact hrec.2
          · intro s hsome t ht
            rw [Option.some_inj] at hsome
            subst hsome
            exact hhead t ht
        · by_cases he : e.action = "end"
          · cases temp with
            | some s0 =>
              have hl : consistencyLoop clock user_id (e :: rest) i (some s0)
                  = (s0, e.timestamp) :: consistencyLoop clock user_id rest (i + 1) none := by
                simp [consistencyLoop, hu, hs, he, hw]
              rw [hl]
              have hrec := ih (i + 1) none htail (by intro s hsome; simp at hsome)
              constructor
              · intro p hp
                rcases List.mem_cons.mp hp with hpp | hpp
                · subst hpp
                  refine ⟨htemp s0 rfl e.timestamp.abs (List.mem_cons_self _ _), ?_⟩
                  simp [Option.elim]
                · have h1 := (hrec.1 p hpp).1
                  have h2 := (hrec.1 p hpp).2
                  simp only [Option.elim, List.nil_append] at h2
                  exact ⟨h1, List.mem_append_right _ (List.mem_cons_of_mem _ h2)⟩
              · refine List.pairwise_cons.mpr ⟨?_, hrec.2⟩
                intro q hq
                have h2 := (hrec.1 q hq).2
                simp only [Option.elim, List.nil_append] at h2
                exact hhead q.1.abs h2
            | none =>
              have hl : consistencyLoop clock user_id (e :: rest) i none
                  = consistencyLoop clock user_id rest (i + 1) none := by
                simp [consistencyLoop, hu, hs, he, hw]
              rw [hl]
              have hrec := ih (i + 1) none htail (by intro s hsome; simp at hsome)
              constructor
              · intro p hp
                refine ⟨(hrec.1 p hp).1, ?_⟩
                have h2 := (hrec.1 p hp).2
                simp only [Option.elim, List.nil_append] at h2 ⊢
                exact List.mem_cons_of_mem _ h2
              · exact hrec.2
          · have hl : consistencyLoop clock user_id (e :: rest) i temp
                = consistencyLoop clock user_id rest (i + 1) temp := by
              simp [consistencyLoop, hu, hs, he, hw]
            rw [hl]
            have hrec := ih (i + 1) temp htail ?_
            · constructor
              · intro p hp
                refine ⟨(hrec.1 p hp).1, ?_⟩
                have h2 := (hrec.1 p hp).2
                rcases List.mem_append.mp h2 with hm | hm
                · exact List.mem_append_left _ hm
                · exact List.mem_append_right _ (List.mem_cons_of_mem _ hm)
              · exact hrec.2
            · intro s hsome t ht
              exact htemp s hsome t (List.mem_cons_of_mem _ ht)
      · have hl : consistencyLoop clock user_id (e :: rest) i temp
            = consistencyLoop clock user_id rest (i + 1) temp := by
          simp [consistencyLoop, hu, hw]
        rw [hl]
        have hrec := ih (i + 1) temp htail ?_
        · constructor
          · intro p hp
            refine ⟨(hrec.1 p hp).1, ?_⟩
            have h2 := (hrec.1 p hp).2
            rcases List.mem_append.mp h2 with hm | hm
            · exact List.mem_append_left _ hm
            · exact List.mem_append_right _ (List.mem_cons_of_mem _ hm)
          · exact hrec.2
        · intro s hsome t ht
          exact htemp s hsome t (List.mem_cons_of_mem _ ht)
    · rw [userTs_cons_skip user_id e rest hu] at hsorted htemp ⊢
      have hl : consistencyLoop clock user_id (e :: rest) i temp
          = consistencyLoop clock user_id rest i temp := by
        simp [consistencyLoop, hu]
      rw [hl]
      exact ih i temp hsorted htemp

/-- C7: when the user's events appear in ascending timestamp order,
every reconstructed session has nonnegative duration (overall scan),
every session pair of the filtered scan has start at or before its end,
and the session pairs never overlap: each session ends at or before the
next one starts. -/
theorem c7_sessions_wellformed (clock : Nat → PyDateTime) (logs : List LogEntry)
    (user_id : Nat)
    (hsorted : List.Pairwise (· ≤ ·) (userTs user_id logs)) :
    (∀ d ∈ overallSessions logs user_id, 0 ≤ d) ∧
    (∀ p ∈ consistencySessions clock logs user_id, p.1.abs ≤ p.2.abs) ∧
    List.Pairwise (fun p q : PyDateTime × PyDateTime => p.2.abs ≤ q.1.abs)
      (consistencySessions clock logs user_id) := by
  have h1 := overallLoop_nonneg user_id logs none hsorted (by intro s hs; simp at hs)
  have h2 := consistencyLoop_inv clock user_id logs 0 none hsorted (by intro s hs; simp at hs)
  exact ⟨h1, fun p hp => (h2.1 p hp).1, h2.2⟩

/-- C5 (amended): for a nonempty session sequence the reported average
and maximum are the minute values rounded DOWN (the floor of
seconds/60, via `round(x // 60)`), not to the nearest integer; the
underlying full-precision average times the count equals the total
exactly, and the floored figures are within one minute below the true
values (`m*60*n <= total < (m+1)*60*n`, and likewise for the max). -/
theorem c5_amended_floor (nl : NumLib) (logs : List LogEntry) (user_id : Nat)
    (fmtv : String)
    (hne : overallSessions logs user_id ≠ [])
    (hfmt : format_duration (overallSessions logs user_id).sum = .ok fmtv) :
    avgStr (overallSessions logs user_id)
        = toString (flooredAvgMin (overallSessions logs user_id)) ++ " min" ∧
    maxStr (overallSessions logs user_id)
        = toString (flooredMaxMin (overallSessions logs user_id)) ++ " min" ∧
    (((overallSessions logs user_id).sum : ℚ) / ((overallSessions logs user_id).length : ℚ))
        * ((overallSessions logs user_id).length : ℚ)
      = ((overallSessions logs user_id).sum : ℚ) ∧
    ((flooredAvgMin (overallSessions logs user_id) * 60
        * ((overallSessions logs user_id).length : ℤ) : ℤ) : ℚ)
      ≤ ((overallSessions logs user_id).sum : ℚ) ∧
    ((overallSessions logs user_id).sum : ℚ)
      < (((flooredAvgMin (overallSessions logs user_id) + 1) * 60
          * ((overallSessions logs user_id).length : ℤ) : ℤ) : ℚ) ∧
    ((flooredMaxMin (overallSessions logs user_id) * 60 : ℤ) : ℚ)
      ≤ (pyMax (overallSessions logs user_id) : ℚ) ∧
    (pyMax (overallSessions logs user_id) : ℚ)
      < (((flooredMaxMin (overallSessions logs user_id) + 1) * 60 : ℤ) : ℚ) ∧
    get_user_overall_stats nl logs user_id
      = .ok ((overallSessions logs user_id).length, avgStr (overallSessions logs user_id),
          maxStr (overallSessions logs user_id), fmtv,
          lognormData nl (durationsMinutes (overallSessions logs user_id)),
          gaussianData nl (durationsMinutes (overallSessions logs user_id))) := by
  have hn : 0 < (overallSessions logs user_id).length := List.length_pos.mpr hne
  have hnq : (0 : ℚ) < ((overallSessions logs user_id).length : ℚ) := by
    exact_mod_cast hn
  refine ⟨rfl, rfl, ?_, ?_, ?_, ?_, ?_, ?_⟩
  · exact div_mul_cancel₀ _ (ne_of_gt hnq)
  · simp only [flooredAvgMin]
    have hx := Int.floor_le
      ((((overallSessions logs user_id).sum : ℚ)
        / ((overallSessions logs user_id).length : ℚ)) / 60)
    rw [le_div_iff₀ (by norm_num : (0:ℚ) < 60)] at hx
    rw [le_div_iff₀ hnq] at hx
    exact_mod_cast hx
  · simp only [flooredAvgMin]
    have hx := Int.lt_floor_add_one
      ((((overallSessions logs user_id).sum : ℚ)
        / ((overallSessions logs user_id).length : ℚ)) / 60)
    rw [div_lt_iff₀ (by norm_num : (0:ℚ) < 60)] at hx
    rw [div_lt_iff₀ hnq] at hx
    exact_mod_cast hx
  · simp only [flooredMaxMin]
    have hx := Int.floor_le ((pyMax (overallSessions logs user_id) : ℚ) / 60)
    rw [le_div_iff₀ (by norm_num : (0:ℚ) < 60)] at hx
    exact_mod_cast hx
  · simp only [flooredMaxMin]
    have hx := Int.lt_floor_add_one ((pyMax (overallSessions logs user_id) : ℚ) / 60)
    rw [div_lt_iff₀ (by norm_num : (0:ℚ) < 60)] at hx
    exact_mod_cast hx
  · have h0 : ¬ ((overallSessions logs user_id).length = 0) := by omega
    simp only [get_user_overall_stats]
    rw [if_neg h0, hfmt]


/-- Witness for C7: two well-ordered sessions for user 1, clock at second 100. -/
theorem c7_sessions_wellformed_witness :
    (∀ d ∈ overallSessions
        [mkE 1 "start" 0, mkE 1 "end" 10, mkE 1 "start" 20, mkE 1 "end" 30] 1, 0 ≤ d) ∧
    (∀ p ∈ consistencySessions (fun _ => mkDT 100)
        [mkE 1 "start" 0, mkE 1 "end" 10, mkE 1 "start" 20, mkE 1 "end" 30] 1,
        p.1.abs ≤ p.2.abs) ∧
    List.Pairwise (fun p q : PyDateTime × PyDateTime => p.2.abs ≤ q.1.abs)
      (consistencySessions (fun _ => mkDT 100)
        [mkE 1 "start" 0, mkE 1 "end" 10, mkE 1 "start" 20, mkE 1 "end" 30] 1) :=
  c7_sessions_wellformed (fun _ => mkDT 100)
    [mkE 1 "start" 0, mkE 1 "end" 10, mkE 1 "start" 20, mkE 1 "end" 30] 1 (by decide)

/-- Witness for C5 (amended) at the single 90-second session. -/
theorem c5_amended_floor_witness :
    avgStr (overallSessions [mkE 1 "start" 0, mkE 1 "end" 90] 1)
        = toString (flooredAvgMin (overallSessions [mkE 1 "start" 0, mkE 1 "end" 90] 1))
          ++ " min" ∧
    maxStr (overallSessions [mkE 1 "start" 0, mkE 1 "end" 90] 1)
        = toString (flooredMaxMin (overallSessions [mkE 1 "start" 0, mkE 1 "end" 90] 1))
          ++ " min" ∧
    (((overallSessions [mkE 1 "start" 0, mkE 1 "end" 90] 1).sum : ℚ)
        / ((overallSessions [mkE 1 "start" 0, mkE 1 "end" 90] 1).length : ℚ))
        * ((overallSessions [mkE 1 "start" 0, mkE 1 "end" 90] 1).length : ℚ)
      = ((overallSessions [mkE 1 "start" 0, mkE 1 "end" 90] 1).sum : ℚ) ∧
    ((flooredAvgMin (overallSessions [mkE 1 "start" 0, mkE 1 "end" 90] 1) * 60
        * ((overallSessions [mkE 1 "start" 0, mkE 1 "end" 90] 1).length : ℤ) : ℤ) : ℚ)
      ≤ ((overallSessions [mkE 1 "start" 0, mkE 1 "end" 90] 1).sum : ℚ) ∧
    ((overallSessions [mkE 1 "start" 0, mkE 1 "end" 90] 1).sum : ℚ)
      < (((flooredAvgMin (overallSessions [mkE 1 "start" 0, mkE 1 "end" 90] 1) + 1) * 60
          * ((overallSessions [mkE 1 "start" 0, mkE 1 "end" 90] 1).length : ℤ) : ℤ) : ℚ) ∧
    ((flooredMaxMin (overallSessions [mkE 1 "start" 0, mkE 1 "end" 90] 1) * 60 : ℤ) : ℚ)
      ≤ (pyMax (overallSessions [mkE 1 "start" 0, mkE 1 "end" 90] 1) : ℚ) ∧
    (pyMax (overallSessions [mkE 1 "start" 0, mkE 1 "end" 90] 1) : ℚ)
      < (((flooredMaxMin (overallSessions [mkE 1 "start" 0, mkE 1 "end" 90] 1) + 1) * 60 : ℤ) : ℚ) ∧
    get_user_overall_stats nl0 [mkE 1 "start" 0, mkE 1 "end" 90] 1
      = .ok ((overallSessions [mkE 1 "start" 0, mkE 1 "end" 90] 1).length,
          avgStr (overallSessions [mkE 1 "start" 0, mkE 1 "end" 90] 1),
          maxStr (overallSessions [mkE 1 "start" 0, mkE 1 "end" 90] 1), "00h 01m 30s",
          lognormData nl0 (durationsMinutes (overallSessions [mkE 1 "start" 0, mkE 1 "end" 90] 1)),
          gaussianData nl0 (durationsMinutes (overallSessions [mkE 1 "start" 0, mkE 1 "end" 90] 1))) :=
  c5_amended_floor nl0 [mkE 1 "start" 0, mkE 1 "end" 90] 1 "00h 01m 30s" (by decide) rfl
